import Mathlib

/-!
blink-lapse: verification of `src/capture.py`.

Shallow embedding of the capture/authentication control flow of
`capture.py`.  The external Blink cloud client (`blinkpy`) is an opaque
collaborator; its calls are modelled by oracle fields in environment
structures, with the outcome space given by the collaborator
contract (§6): `blink.start()` returns a boolean or raises the
distinguished two-factor condition, and the per-camera operations
(snapshot, refresh, download) as well as the timed sleeps may either
complete or raise.  Every observable side effect (log calls, credential
saves, prompts, filesystem writes, sleeps) is recorded in an event trace,
and exceptional control flow is made explicit with a `Res` result type.
-/

namespace BlinkLapse

/-- Python exception classes relevant to the control flow.
`generic` stands for any `Exception` subclass other than
`BlinkTwoFARequiredError`; `keyboardInterrupt` and `systemExit` derive
from `BaseException` but not from `Exception`. -/
inductive Exc
  | twoFARequired
  | generic
  | keyboardInterrupt
  | systemExit (code : Nat)
deriving DecidableEq, Repr

/-- Whether `except Exception` (capture.py line 166) matches the raised
exception: `BlinkTwoFARequiredError` and generic errors are `Exception`
subclasses, `KeyboardInterrupt` and `SystemExit` are not. -/
def Exc.isException : Exc → Bool
  | .twoFARequired => true
  | .generic => true
  | .keyboardInterrupt => false
  | .systemExit _ => false

/-- Result of running a piece of Python code: normal value or raised
exception. -/
inductive Res (α : Type)
  | ok (a : α)
  | exc (e : Exc)
deriving DecidableEq, Repr

/-- Observable events of one run, in program order.  Log calls carry just
enough payload to state the claims; `saveCreds b` records a
`blink.save(credentials_file)` call where `b` says whether the session
being saved came out of a successful login (a `start()` that returned
True, or a successful 2FA exchange).  `deleteCreds` is the event a
credentials-file deletion would emit; `capture.py` never performs one. -/
inductive Event
  | infoLoadCreds
  | startSession
  | saveCreds (fromSuccessfulLogin : Bool)
  | deleteCreds
  | warnSavedCredsFailed
  | prompt2fa
  | send2fa (ok : Bool)
  | errorTwoFAFailed
  | promptUsername
  | promptPassword
  | infoCredsSaved
  | errorNotAvailable
  | errorNoCameras
  | infoCamerasFound (names : List String)
  | errorFilterNoMatch (available : List String)
  | mkdirCam (dir : String)
  | infoStartingCapture
  | snap (cam : String)
  | settleSleep
  | refresh
  | download (cam : String) (file : String)
  | infoSavedFrame (file : String)
  | warnFrameFailed (cam : String)
  | logExceptionCapture (cam : String)
  | infoNextCapture
  | intervalSleep
  | infoStoppedByUser
deriving DecidableEq, Repr

/-- Oracle outcomes for the external calls made by `authenticate`
(capture.py lines 41-81). -/
structure AuthEnv where
  /-- Model of `credentials_file.exists()` (line 52). -/
  credsFileExists : Bool
  /-- Outcome of `blink.start()` with the saved credentials (line 57):
  a boolean, or `BlinkTwoFARequiredError`, or an interrupt. -/
  savedStart : Res Bool
  /-- Outcome of `blink.start()` with fresh credentials (line 75). -/
  freshStart : Res Bool
  /-- Result of `blink.send_2fa_code(code)` (line 35). -/
  send2faOk : Bool
  /-- Model of `os.environ.get("BLINK_USERNAME")` (line 68). -/
  envUsername : Option String
  /-- Model of `os.environ.get("BLINK_PASSWORD")` (line 69). -/
  envPassword : Option String
deriving DecidableEq, Repr

/-- The session object returned by `authenticate`; `startedOk` tracks
whether it came out of a successful login (used to tag `saveCreds`). -/
structure Blink where
  startedOk : Bool
deriving DecidableEq, Repr

/-- Model of `_do_2fa` (capture.py lines 32-38): prompt for a code, submit it;
on failure log an error and `sys.exit(1)`. -/
def do_2fa (send2faOk : Bool) : List Event × Res Unit :=
  if send2faOk then
    ([.prompt2fa, .send2fa true], .ok ())
  else
    ([.prompt2fa, .send2fa false, .errorTwoFAFailed], .exc (.systemExit 1))

/-- The fresh-login part of `authenticate` (capture.py lines 67-81):
resolve username/password from the environment or prompts, start a new
session, run the 2FA exchange if the start raises the two-factor
condition, then save credentials and return the session.  Note that the
return value of `blink.start()` is ignored on line 75: the save on line
79 runs whether or not the start succeeded. -/
def fresh_login (env : AuthEnv) : List Event × Res Blink :=
  let loginEvs : List Event :=
    (match env.envUsername with
     | some _ => []
     | none => [.promptUsername]) ++
    (match env.envPassword with
     | some _ => []
     | none => [.promptPassword])
  match env.freshStart with
  | .ok b =>
      (loginEvs ++ [.startSession, .saveCreds b, .infoCredsSaved], .ok ⟨b⟩)
  | .exc .twoFARequired =>
      let r := do_2fa env.send2faOk
      match r.2 with
      | .ok _ =>
          (loginEvs ++ [.startSession] ++ r.1 ++ [.saveCreds true, .infoCredsSaved],
           .ok ⟨true⟩)
      | .exc e => (loginEvs ++ [.startSession] ++ r.1, .exc e)
  | .exc e => (loginEvs ++ [.startSession], .exc e)

/-- Model of `authenticate` (capture.py lines 41-81).  If the credentials file
exists, try the saved credentials first: on a successful start, save and
return; on the two-factor condition, run the 2FA exchange, save and
return; on a False start, log a warning and fall through to fresh
login.  Any other raised exception propagates. -/
def authenticate (env : AuthEnv) : List Event × Res Blink :=
  if env.credsFileExists then
    match env.savedStart with
    | .ok true =>
        ([.infoLoadCreds, .startSession, .saveCreds true], .ok ⟨true⟩)
    | .ok false =>
        let r := fresh_login env
        ([.infoLoadCreds, .startSession, .warnSavedCredsFailed] ++ r.1, r.2)
    | .exc .twoFARequired =>
        let r := do_2fa env.send2faOk
        match r.2 with
        | .ok _ =>
            ([.infoLoadCreds, .startSession] ++ r.1 ++ [.saveCreds true], .ok ⟨true⟩)
        | .exc e => ([.infoLoadCreds, .startSession] ++ r.1, .exc e)
    | .exc e => ([.infoLoadCreds, .startSession], .exc e)
  else fresh_login env

/-- Oracle outcomes for the external calls made by one `capture_frame`
invocation (capture.py lines 84-115). -/
structure CaptureEnv where
  /-- Value of `datetime.now().strftime("%Y%m%d_%H%M%S")` at trigger time (line 93). -/
  timestamp : String
  /-- Outcome of `camera.snap_picture()` (line 97). -/
  snapOut : Res Unit
  /-- Outcome of `asyncio.sleep(SNAP_SETTLE_DELAY)` (line 102). -/
  settleOut : Res Unit
  /-- Outcome of `blink.refresh(force=True)` (line 105). -/
  refreshOut : Res Unit
  /-- Outcome of `camera.image_to_file(...)` (line 108). -/
  downloadOut : Res Unit
  /-- Value of `filename.exists()` after the download (line 110). -/
  fileExists : Bool
  /-- Value of `filename.stat().st_size` after the download (line 110). -/
  fileSize : Nat
deriving DecidableEq, Repr

/-- Model of `capture_frame` (capture.py lines 84-115): compute the
timestamp-based filename, trigger a snapshot, sleep the settle delay,
force a refresh, download the image, then return True iff the file
exists with non-zero size (warning and False otherwise).  The function
body contains no exception handler, so a raise in any step propagates to
the caller. -/
def capture_frame (env : CaptureEnv) (output_dir : String) (camera_name : String) :
    List Event × Res Bool :=
  let filename := output_dir ++ "/" ++ env.timestamp ++ ".jpg"
  match env.snapOut with
  | .exc e => ([], .exc e)
  | .ok _ =>
    match env.settleOut with
    | .exc e => ([.snap camera_name], .exc e)
    | .ok _ =>
      match env.refreshOut with
      | .exc e => ([.snap camera_name, .settleSleep], .exc e)
      | .ok _ =>
        match env.downloadOut with
        | .exc e => ([.snap camera_name, .settleSleep, .refresh], .exc e)
        | .ok _ =>
          let evs : List Event :=
            [.snap camera_name, .settleSleep, .refresh,
             .download camera_name filename]
          if env.fileExists ∧ 0 < env.fileSize then
            (evs ++ [.infoSavedFrame filename], .ok true)
          else
            (evs ++ [.warnFrameFailed camera_name], .ok false)

/-- Fallback capture environment used when the oracle list of a cycle is
shorter than the camera list (everything succeeds). -/
def defaultCapture : CaptureEnv :=
  ⟨"00000000_000000", .ok (), .ok (), .ok (), .ok (), true, 1⟩

/-- Oracle outcomes for one iteration of the collector loop
(capture.py lines 160-173). -/
structure CycleEnv where
  /-- Outcome of the cycle-level `blink.refresh(force=True)` (line 161). -/
  refreshOut : Res Unit
  /-- Per-camera capture oracles, in camera order (lines 163-167). -/
  captures : List CaptureEnv
  /-- Outcome of `asyncio.sleep(interval)` (line 173). -/
  intervalSleepOut : Res Unit
deriving DecidableEq, Repr

/-- The per-camera for loop of one cycle (capture.py lines 163-167):
invoke `capture_frame` for each camera; a raised `Exception` is caught
and logged at the per-camera boundary and the remaining cameras are
still attempted; any other raise propagates out of the loop. -/
def run_cams (frames_dir : String) :
    List String → List CaptureEnv → List Event × Option Exc
  | [], _ => ([], none)
  | name :: cams, caps =>
    let cenv := caps.headD defaultCapture
    let r := capture_frame cenv (frames_dir ++ "/" ++ name) name
    match r.2 with
    | .ok _ =>
        let rest := run_cams frames_dir cams caps.tail
        (r.1 ++ rest.1, rest.2)
    | .exc e =>
        if e.isException then
          let rest := run_cams frames_dir cams caps.tail
          (r.1 ++ [.logExceptionCapture name] ++ rest.1, rest.2)
        else (r.1, some e)

/-- How the `while True` loop ends: `done` = the `break` on line 170
(single-shot), `excp e` = an exception escaped the loop body, `fuelOut`
= the supplied cycle-oracle list ran out with the loop still running. -/
inductive LoopRes
  | done
  | excp (e : Exc)
  | fuelOut
deriving DecidableEq, Repr

/-- The `while True` loop of `run_collector` (capture.py lines 160-173),
driven by one `CycleEnv` per iteration: refresh, capture every camera,
then either break (single-shot) or sleep the interval and repeat. -/
def run_cycles (cams : List String) (frames_dir : String) (once : Bool) :
    List CycleEnv → List Event × LoopRes
  | [] => ([], .fuelOut)
  | cyc :: rest =>
    match cyc.refreshOut with
    | .exc e => ([], .excp e)
    | .ok _ =>
      let r := run_cams frames_dir cams cyc.captures
      match r.2 with
      | some e => (.refresh :: r.1, .excp e)
      | none =>
        if once then (.refresh :: r.1, .done)
        else
          match cyc.intervalSleepOut with
          | .exc e => (.refresh :: r.1 ++ [.infoNextCapture], .excp e)
          | .ok _ =>
            let r2 := run_cycles cams frames_dir once rest
            (.refresh :: r.1 ++ [.infoNextCapture, .intervalSleep] ++ r2.1, r2.2)

/-- How `run_collector` itself ends: a normal return, a raised exception
that escapes it, or oracle fuel exhaustion of the endless loop. -/
inductive RunOutcome
  | normal
  | raised (e : Exc)
  | fuelOut
deriving DecidableEq, Repr

/-- Oracle outcomes for one `run_collector` execution. -/
structure CollectorEnv where
  auth : AuthEnv
  /-- Value of `blink.available` after authentication (line 128). -/
  available : Bool
  /-- Keys of `blink.cameras`, in discovery (enumeration) order (line 132). -/
  camerasD : List String
  /-- Oracles for the successive loop iterations. -/
  cycles : List CycleEnv
deriving DecidableEq, Repr

/-- Camera-set resolution (capture.py line 140): the dict comprehension
keeps, in discovery order, exactly the discovered cameras whose name is
in the filter. -/
def resolve_cameras (cams : List String) (f : List String) : List String :=
  cams.filter (fun k => k ∈ f)

/-- The tail of `run_collector` once the camera set is resolved
(capture.py lines 148-175): create the per-camera output directories,
log the start, then run the loop inside the outer
`try ... except KeyboardInterrupt` handler. -/
def after_resolve (env : CollectorEnv) (resolved : List String)
    (frames_dir : String) (once : Bool) (acc : List Event) :
    List Event × RunOutcome :=
  let mkdirs := resolved.map (fun name => Event.mkdirCam (frames_dir ++ "/" ++ name))
  let r := run_cycles resolved frames_dir once env.cycles
  let pre := acc ++ mkdirs ++ [.infoStartingCapture]
  match r.2 with
  | .done => (pre ++ r.1, .normal)
  | .fuelOut => (pre ++ r.1, .fuelOut)
  | .excp .keyboardInterrupt => (pre ++ r.1 ++ [.infoStoppedByUser], .normal)
  | .excp e => (pre ++ r.1, .raised e)

/-- Model of `run_collector` (capture.py lines 118-175): authenticate, check
availability, discover cameras, resolve the optional name filter
(`if camera_filter:` is falsy for both None and the empty list), then
run the capture loop.  The outer interrupt handler wraps only the loop —
not authentication or discovery. -/
def run_collector (env : CollectorEnv) (camera_filter : Option (List String))
    (frames_dir : String) (once : Bool) : List Event × RunOutcome :=
  let a := authenticate env.auth
  match a.2 with
  | .exc e => (a.1, .raised e)
  | .ok _blink =>
    if !env.available then (a.1 ++ [.errorNotAvailable], .normal)
    else if env.camerasD.isEmpty then (a.1 ++ [.errorNoCameras], .normal)
    else
      let acc := a.1 ++ [.infoCamerasFound env.camerasD]
      match camera_filter with
      | some f =>
        if f.isEmpty then
          after_resolve env env.camerasD frames_dir once acc
        else
          let resolved := resolve_cameras env.camerasD f
          if resolved.isEmpty then
            (acc ++ [.errorFilterNoMatch env.camerasD], .normal)
          else after_resolve env resolved frames_dir once acc
      | none => after_resolve env env.camerasD frames_dir once acc

/-- Process exit code of `main` (capture.py lines 231-239): `asyncio.run`
has no surrounding handler, so a normal return exits 0, an uncaught
`SystemExit(c)` exits `c`, an uncaught `KeyboardInterrupt` exits 130,
and any other uncaught exception exits 1.  `none` when the loop oracle
fuel ran out (the process is still running). -/
def exit_code : RunOutcome → Option Nat
  | .normal => some 0
  | .raised (.systemExit c) => some c
  | .raised .keyboardInterrupt => some 130
  | .raised _ => some 1
  | .fuelOut => none

/-- Paths of the image files written by downloads in a trace. -/
def downloads (trace : List Event) : List String :=
  trace.filterMap (fun e =>
    match e with
    | .download _ f => some f
    | _ => none)

/-- Whether an event touches the filesystem or the cameras: a snapshot
trigger, a frame download, or a frame-directory creation. -/
def Event.isCaptureEffect : Event → Bool
  | .snap _ => true
  | .download _ _ => true
  | .mkdirCam _ => true
  | _ => false

/-! ## Helper lemmas -/

/-- Lemma: `fresh_login` never deletes the credentials file. -/
theorem fresh_login_no_delete (env : AuthEnv) :
    Event.deleteCreds ∉ (fresh_login env).1 := by
  rcases env with ⟨cf, ss, fs, s2, eu, ep⟩
  rcases fs with b | e
  · rcases eu with _ | u <;> rcases ep with _ | p <;> simp [fresh_login]
  · rcases e with _ | _ | _ | c <;> rcases eu with _ | u <;> rcases ep with _ | p <;>
      cases s2 <;> simp [fresh_login, do_2fa]

/-- Lemma: `fresh_login` performs no snapshot, download or directory creation. -/
theorem fresh_login_no_capture_effect (env : AuthEnv) :
    ∀ ev ∈ (fresh_login env).1, ev.isCaptureEffect = false := by
  rcases env with ⟨cf, ss, fs, s2, eu, ep⟩
  rcases fs with b | e
  · rcases eu with _ | u <;> rcases ep with _ | p <;>
      simp [fresh_login, Event.isCaptureEffect]
  · rcases e with _ | _ | _ | c <;> rcases eu with _ | u <;> rcases ep with _ | p <;>
      cases s2 <;> simp [fresh_login, do_2fa, Event.isCaptureEffect]

/-- Lemma: `authenticate` performs no snapshot, download or directory creation. -/
theorem authenticate_no_capture_effect (env : AuthEnv) :
    ∀ ev ∈ (authenticate env).1, ev.isCaptureEffect = false := by
  rcases env with ⟨cf, ss, fs, s2, eu, ep⟩
  cases cf
  · exact fresh_login_no_capture_effect ⟨false, ss, fs, s2, eu, ep⟩
  · rcases ss with b | e
    · cases b
      · intro ev h
        simp [authenticate] at h
        rcases h with h | h | h | h
        · subst h; rfl
        · subst h; rfl
        · subst h; rfl
        · exact fresh_login_no_capture_effect ⟨true, .ok false, fs, s2, eu, ep⟩ ev h
      · simp [authenticate, Event.isCaptureEffect]
    · rcases e with _ | _ | _ | c <;> cases s2 <;>
        simp [authenticate, do_2fa, Event.isCaptureEffect]

/-- A single `capture_frame` run never emits a per-camera-boundary
exception log (that event belongs to the Collector Loop). -/
theorem capture_frame_no_logException (cenv : CaptureEnv) (dir nm x : String) :
    Event.logExceptionCapture x ∉ (capture_frame cenv dir nm).1 := by
  rcases cenv with ⟨ts, sn, st, rf, dl, fe, fs⟩
  rcases sn with u | e
  · rcases st with u | e
    · rcases rf with u | e
      · rcases dl with u | e
        · by_cases h : fe = true ∧ 0 < fs <;> simp [capture_frame, h]
        · simp [capture_frame]
      · simp [capture_frame]
    · simp [capture_frame]
  · simp [capture_frame]

/-- Lemma: `capture_frame` returns True only when the downloaded file exists
with non-zero size. -/
theorem capture_frame_ok_true (cenv : CaptureEnv) (dir nm : String)
    (h : (capture_frame cenv dir nm).2 = .ok true) :
    cenv.fileExists = true ∧ 0 < cenv.fileSize := by
  rcases cenv with ⟨ts, sn, st, rf, dl, fe, fs⟩
  rcases sn with u | e
  · rcases st with u | e
    · rcases rf with u | e
      · rcases dl with u | e
        · by_cases hc : fe = true ∧ 0 < fs
          · exact hc
          · simp [capture_frame, hc] at h
        · simp [capture_frame] at h
      · simp [capture_frame] at h
    · simp [capture_frame] at h
  · simp [capture_frame] at h

/-- One step of the per-camera loop when the capture raises an
`Exception`: the failure is logged at the boundary and the remaining
cameras still run. -/
theorem run_cams_catches_exception (fd nm : String) (cams : List String)
    (caps : List CaptureEnv) (cenv : CaptureEnv) (e : Exc)
    (he : (capture_frame cenv (fd ++ "/" ++ nm) nm).2 = .exc e)
    (hex : e.isException = true) :
    run_cams fd (nm :: cams) (cenv :: caps) =
      ((capture_frame cenv (fd ++ "/" ++ nm) nm).1 ++ [.logExceptionCapture nm]
        ++ (run_cams fd cams caps).1,
       (run_cams fd cams caps).2) := by
  simp only [run_cams, List.headD_cons, List.tail_cons]
  rw [he]
  simp [hex]

/-- One step of the per-camera loop when the capture raises something
that is not an `Exception` subclass: the raise propagates, nothing is
logged at the boundary, and the remaining cameras are not attempted. -/
theorem run_cams_propagates_non_exception (fd nm : String) (cams : List String)
    (caps : List CaptureEnv) (cenv : CaptureEnv) (e : Exc)
    (he : (capture_frame cenv (fd ++ "/" ++ nm) nm).2 = .exc e)
    (hex : e.isException = false) :
    run_cams fd (nm :: cams) (cenv :: caps) =
      ((capture_frame cenv (fd ++ "/" ++ nm) nm).1, some e) := by
  simp only [run_cams, List.headD_cons, List.tail_cons]
  rw [he]
  simp [hex]

/-- An exception escaping the per-camera loop escapes the cycle loop. -/
theorem run_cycles_propagates (cams : List String) (fd : String) (once : Bool)
    (cyc : CycleEnv) (rest : List CycleEnv) (e : Exc)
    (hr : cyc.refreshOut = .ok ())
    (hc : (run_cams fd cams cyc.captures).2 = some e) :
    run_cycles cams fd once (cyc :: rest) =
      (.refresh :: (run_cams fd cams cyc.captures).1, .excp e) := by
  rcases cyc with ⟨r, caps, islp⟩
  simp only at hr hc
  subst hr
  simp only [run_cycles]
  rw [hc]

/-! ## Claims -/

/-- Claim C1 (evaluation at the failing input): with no credentials file
and a fresh login whose session start returns False (does not succeed),
`authenticate` still writes the credentials file — the saved value was
not produced by a successful login — and returns the unstarted session.
This contradicts the invariant that the file only ever contains a value
produced by a successful login. -/
theorem claim_C1_fresh_login_persists_unauthenticated_creds :
    authenticate ⟨false, .ok true, .ok false, true, some "user", some "pass"⟩ =
      ([.startSession, .saveCreds false, .infoCredsSaved], .ok ⟨false⟩) ∧
    Event.saveCreds false ∈
      (authenticate ⟨false, .ok true, .ok false, true, some "user", some "pass"⟩).1 := by
  refine ⟨rfl, ?_⟩
  simp [authenticate, fresh_login]

/-- Claim C4: when the credentials file exists and the saved-credentials
session start returns False (fails for a reason other than the
second-factor condition), `authenticate` logs a warning and continues
exactly as the fresh-login path, never deletes the credentials file, and
does not itself terminate: any raised exception of the combined run is
one the fresh-login path raises. -/
theorem claim_C4_saved_failure_falls_back_to_fresh_login (env : AuthEnv)
    (hc : env.credsFileExists = true) (hs : env.savedStart = .ok false) :
    authenticate env =
      ([.infoLoadCreds, .startSession, .warnSavedCredsFailed] ++ (fresh_login env).1,
       (fresh_login env).2) ∧
    Event.warnSavedCredsFailed ∈ (authenticate env).1 ∧
    Event.deleteCreds ∉ (authenticate env).1 ∧
    (∀ e, (authenticate env).2 = .exc e → (fresh_login env).2 = .exc e) := by
  have heq : authenticate env =
      ([.infoLoadCreds, .startSession, .warnSavedCredsFailed] ++ (fresh_login env).1,
       (fresh_login env).2) := by
    simp [authenticate, hc, hs]
  refine ⟨heq, ?_, ?_, ?_⟩
  · rw [heq]; simp
  · rw [heq]
    simp only [List.mem_append, List.mem_cons, List.not_mem_nil]
    rintro (⟨h | h | h | h⟩ | h)
    · exact Event.noConfusion h
    · exact Event.noConfusion h
    · exact Event.noConfusion h
    · exact h
    · exact fresh_login_no_delete env h
  · intro e h
    rw [heq] at h
    exact h

/-- Witness for C4. -/
theorem claim_C4_saved_failure_falls_back_witness :
    Event.warnSavedCredsFailed ∈
      (authenticate ⟨true, .ok false, .ok true, true, some "u", some "p"⟩).1 :=
  (claim_C4_saved_failure_falls_back_to_fresh_login
    ⟨true, .ok false, .ok true, true, some "u", some "p"⟩ rfl rfl).2.1

/-- Claim C7: when the name filter shares at least one name with the
discovered camera set, the resolved capture set contains exactly the
discovered cameras whose names are in the filter, is a sublist of the
discovery order (order preserved), and is nonempty (so the empty-filter
early stop is not taken). -/
theorem claim_C7_filter_intersection_preserves_order (cams f : List String)
    (hint : ∃ k, k ∈ cams ∧ k ∈ f) :
    (∀ k, k ∈ resolve_cameras cams f ↔ (k ∈ cams ∧ k ∈ f)) ∧
    (resolve_cameras cams f).Sublist cams ∧
    resolve_cameras cams f ≠ [] := by
  refine ⟨?_, ?_, ?_⟩
  · intro k
    simp [resolve_cameras, List.mem_filter]
  · exact List.filter_sublist _
  · obtain ⟨k, hk1, hk2⟩ := hint
    intro hemp
    have hk : k ∈ resolve_cameras cams f := by
      simp [resolve_cameras, List.mem_filter]
      exact ⟨hk1, hk2⟩
    rw [hemp] at hk
    exact List.not_mem_nil k hk

/-- Witness for C7. -/
theorem claim_C7_filter_intersection_witness :
    (∀ k, k ∈ resolve_cameras ["front", "back"] ["back", "garage"] ↔
      (k ∈ ["front", "back"] ∧ k ∈ ["back", "garage"])) ∧
    (resolve_cameras ["front", "back"] ["back", "garage"]).Sublist ["front", "back"] ∧
    resolve_cameras ["front", "back"] ["back", "garage"] ≠ [] :=
  claim_C7_filter_intersection_preserves_order ["front", "back"] ["back", "garage"]
    ⟨"back", by simp, by simp⟩

/-- Claim C2 (counterexample): when the snapshot trigger raises a
generic exception, `capture_frame` does not return a boolean — the
exception propagates past its boundary. -/
theorem claim_C2_counterexample_capture_raises :
    capture_frame ⟨"20240101_120000", .exc .generic, .ok (), .ok (), .ok (), true, 1⟩
        "frames/cam" "cam" = ([], .exc .generic) ∧
    ∀ b : Bool,
      (capture_frame ⟨"20240101_120000", .exc .generic, .ok (), .ok (), .ok (), true, 1⟩
        "frames/cam" "cam").2 ≠ .ok b := by
  refine ⟨rfl, ?_⟩
  intro b h
  simp [capture_frame] at h

/-- Claim C2 (amended): `capture_frame` returns a boolean whenever the
snapshot trigger, settle sleep, refresh and download all complete; when
one of them raises an `Exception`, the raise escapes `capture_frame` and
is caught and logged at the per-camera boundary of the Collector Loop,
so the remaining cameras in the cycle still run. -/
theorem claim_C2_capture_result_and_caller_boundary (cenv : CaptureEnv)
    (dir nm : String)
    (h1 : cenv.snapOut = .ok ()) (h2 : cenv.settleOut = .ok ())
    (h3 : cenv.refreshOut = .ok ()) (h4 : cenv.downloadOut = .ok ()) :
    (∃ b, (capture_frame cenv dir nm).2 = .ok b) ∧
    (∀ (fd nm2 : String) (cams : List String) (caps : List CaptureEnv)
        (cenv2 : CaptureEnv) (e : Exc),
      (capture_frame cenv2 (fd ++ "/" ++ nm2) nm2).2 = .exc e →
      e.isException = true →
      run_cams fd (nm2 :: cams) (cenv2 :: caps) =
        ((capture_frame cenv2 (fd ++ "/" ++ nm2) nm2).1 ++ [.logExceptionCapture nm2]
          ++ (run_cams fd cams caps).1,
         (run_cams fd cams caps).2)) := by
  constructor
  · rcases cenv with ⟨ts, sn, st, rf, dl, fe, fs⟩
    simp only at h1 h2 h3 h4
    subst h1; subst h2; subst h3; subst h4
    by_cases hc : fe = true ∧ 0 < fs
    · exact ⟨true, by simp [capture_frame, hc]⟩
    · exact ⟨false, by simp [capture_frame, hc]⟩
  · intro fd nm2 cams caps cenv2 e he hex
    exact run_cams_catches_exception fd nm2 cams caps cenv2 e he hex

/-- Witness for C2. -/
theorem claim_C2_capture_result_witness :
    ∃ b, (capture_frame ⟨"t", .ok (), .ok (), .ok (), .ok (), true, 5⟩
      "frames/cam" "cam").2 = .ok b :=
  (claim_C2_capture_result_and_caller_boundary
    ⟨"t", .ok (), .ok (), .ok (), .ok (), true, 5⟩ "frames/cam" "cam"
    rfl rfl rfl rfl).1

/-- Claim C6: when the snapshot, sleep, refresh and download all
complete but the downloaded file is absent or empty, `capture_frame`
logs a warning and returns False; it returns True only when the file
exists with non-zero size; and the per-camera loop continues with the
remaining cameras after the False result. -/
theorem claim_C6_empty_file_returns_false (cenv : CaptureEnv) (dir nm : String)
    (h1 : cenv.snapOut = .ok ()) (h2 : cenv.settleOut = .ok ())
    (h3 : cenv.refreshOut = .ok ()) (h4 : cenv.downloadOut = .ok ())
    (h5 : cenv.fileExists = false ∨ cenv.fileSize = 0) :
    capture_frame cenv dir nm =
      ([.snap nm, .settleSleep, .refresh,
        .download nm (dir ++ "/" ++ cenv.timestamp ++ ".jpg"),
        .warnFrameFailed nm], .ok false) ∧
    (∀ (cenv2 : CaptureEnv) (dir2 nm2 : String),
      (capture_frame cenv2 dir2 nm2).2 = .ok true →
      cenv2.fileExists = true ∧ 0 < cenv2.fileSize) ∧
    (∀ (fd : String) (cams : List String) (caps : List CaptureEnv),
      (run_cams fd (nm :: cams) (cenv :: caps)).1 =
        (capture_frame cenv (fd ++ "/" ++ nm) nm).1 ++ (run_cams fd cams caps).1 ∧
      (run_cams fd (nm :: cams) (cenv :: caps)).2 = (run_cams fd cams caps).2) := by
  have key : ∀ d : String, capture_frame cenv d nm =
      ([.snap nm, .settleSleep, .refresh,
        .download nm (d ++ "/" ++ cenv.timestamp ++ ".jpg"),
        .warnFrameFailed nm], .ok false) := by
    intro d
    rcases cenv with ⟨ts, sn, st, rf, dl, fe, fs⟩
    simp only at h1 h2 h3 h4 h5
    subst h1; subst h2; subst h3; subst h4
    have hc : ¬(fe = true ∧ 0 < fs) := by
      rcases h5 with h5 | h5 <;> subst h5 <;> simp
    simp [capture_frame, hc]
  refine ⟨key dir, fun cenv2 dir2 nm2 h => capture_frame_ok_true cenv2 dir2 nm2 h, ?_⟩
  intro fd cams caps
  constructor <;> simp only [run_cams, List.headD_cons, List.tail_cons, key]

/-- Witness for C6. -/
theorem claim_C6_empty_file_witness :
    capture_frame ⟨"20240101_120000", .ok (), .ok (), .ok (), .ok (), false, 0⟩
        "frames/cam" "cam" =
      ([.snap "cam", .settleSleep, .refresh,
        .download "cam" "frames/cam/20240101_120000.jpg",
        .warnFrameFailed "cam"], .ok false) :=
  (claim_C6_empty_file_returns_false
    ⟨"20240101_120000", .ok (), .ok (), .ok (), .ok (), false, 0⟩
    "frames/cam" "cam" rfl rfl rfl rfl (Or.inl rfl)).1

/-- Claim C10: the per-camera boundary (`except Exception`) does not
match `KeyboardInterrupt` or `SystemExit`; a raise of either from a
capture is not logged as a recoverable per-camera failure, aborts the
rest of the per-camera loop, and escapes the cycle loop. -/
theorem claim_C10_boundary_only_exception :
    Exc.isException .keyboardInterrupt = false ∧
    (∀ c, Exc.isException (.systemExit c) = false) ∧
    (∀ (fd nm : String) (cams : List String) (cenv : CaptureEnv)
        (caps : List CaptureEnv) (e : Exc),
      (capture_frame cenv (fd ++ "/" ++ nm) nm).2 = .exc e →
      e.isException = false →
      run_cams fd (nm :: cams) (cenv :: caps) =
        ((capture_frame cenv (fd ++ "/" ++ nm) nm).1, some e) ∧
      (∀ x, Event.logExceptionCapture x ∉ (run_cams fd (nm :: cams) (cenv :: caps)).1)) ∧
    (∀ (cams : List String) (fd : String) (once : Bool) (cyc : CycleEnv)
        (rest : List CycleEnv) (e : Exc),
      cyc.refreshOut = .ok () → (run_cams fd cams cyc.captures).2 = some e →
      (run_cycles cams fd once (cyc :: rest)).2 = .excp e) := by
  refine ⟨rfl, fun c => rfl, ?_, ?_⟩
  · intro fd nm cams cenv caps e he hex
    have heq := run_cams_propagates_non_exception fd nm cams caps cenv e he hex
    refine ⟨heq, ?_⟩
    intro x
    rw [heq]
    exact capture_frame_no_logException cenv (fd ++ "/" ++ nm) nm x
  · intro cams fd once cyc rest e hr hc
    rw [run_cycles_propagates cams fd once cyc rest e hr hc]

/-- Witness for C10. -/
theorem claim_C10_boundary_witness :
    run_cams "frames" ["cam", "cam2"]
        [⟨"t", .exc .keyboardInterrupt, .ok (), .ok (), .ok (), true, 1⟩] =
      ([], some .keyboardInterrupt) :=
  ((claim_C10_boundary_only_exception.2.2.1 "frames" "cam" ["cam2"]
      ⟨"t", .exc .keyboardInterrupt, .ok (), .ok (), .ok (), true, 1⟩ []
      .keyboardInterrupt rfl rfl).1)

/-- Spec §8 scenario oracle: fresh login succeeds without 2FA. -/
def scenarioAuth : AuthEnv := ⟨false, .ok true, .ok true, true, some "user", some "pass"⟩

/-- Spec §8 scenario oracle: a capture in which every step succeeds and
the downloaded file is non-empty. -/
def scenarioCap (ts : String) : CaptureEnv := ⟨ts, .ok (), .ok (), .ok (), .ok (), true, 100⟩

/-- Spec §8 scenario: two cameras `front` and `back`, fresh login, one
cycle in which everything succeeds. -/
def scenarioEnv : CollectorEnv :=
  ⟨scenarioAuth, true, ["front", "back"],
   [⟨.ok (), [scenarioCap "20240101_120000", scenarioCap "20240101_120005"], .ok ()⟩]⟩

/-- Claim C5 (counterexample): in the two-camera single-shot scenario
the trace contains three state-refresh calls — one cycle-level refresh
plus one inside the capture step of each camera — not exactly one. -/
theorem claim_C5_counterexample_three_refreshes :
    (run_collector scenarioEnv none "frames" true).1.count .refresh = 3 ∧
    (run_collector scenarioEnv none "frames" true).1.count .refresh ≠ 1 := by
  refine ⟨rfl, ?_⟩
  intro h
  rw [(rfl : (run_collector scenarioEnv none "frames" true).1.count .refresh = 3)] at h
  exact absurd h (by decide)

/-- Claim C5 (amended): in the two-camera single-shot fresh-login
scenario, exactly one login flow executes, three refresh calls occur
(one cycle-level plus one per capture), exactly the two frame files
`frames/front/<ts>.jpg` and `frames/back/<ts>.jpg` are downloaded, and
the run ends normally with exit code 0 without ever executing the
inter-cycle wait. -/
theorem claim_C5_single_shot_scenario :
    (run_collector scenarioEnv none "frames" true).2 = .normal ∧
    exit_code (run_collector scenarioEnv none "frames" true).2 = some 0 ∧
    (run_collector scenarioEnv none "frames" true).1.count .startSession = 1 ∧
    (run_collector scenarioEnv none "frames" true).1.count .refresh = 3 ∧
    downloads (run_collector scenarioEnv none "frames" true).1 =
      ["frames/front/20240101_120000.jpg", "frames/back/20240101_120005.jpg"] ∧
    Event.intervalSleep ∉ (run_collector scenarioEnv none "frames" true).1 ∧
    Event.infoNextCapture ∉ (run_collector scenarioEnv none "frames" true).1 := by
  refine ⟨rfl, rfl, rfl, rfl, rfl, by decide, by decide⟩

/-- Interrupt delivered at the authentication suspension point: the
fresh-login session start raises `KeyboardInterrupt`. -/
def interruptedAuthEnv : CollectorEnv :=
  ⟨⟨false, .ok true, .exc .keyboardInterrupt, true, some "user", some "pass"⟩,
   true, ["cam"], []⟩

/-- Claim C3 (counterexample): an interrupt delivered during
authentication is not caught by the loop-level handler; `run_collector`
re-raises it, no clean-shutdown message is logged, and the process exits
130, not 0. -/
theorem claim_C3_counterexample_interrupt_during_auth :
    (run_collector interruptedAuthEnv none "frames" false).2 =
      .raised .keyboardInterrupt ∧
    exit_code (run_collector interruptedAuthEnv none "frames" false).2 = some 130 ∧
    exit_code (run_collector interruptedAuthEnv none "frames" false).2 ≠ some 0 ∧
    Event.infoStoppedByUser ∉ (run_collector interruptedAuthEnv none "frames" false).1 := by
  refine ⟨rfl, rfl, by decide, by decide⟩

/-- Claim C3 (amended): an interrupt surfacing from inside the capture
loop — at the cycle-level refresh, during a capture (including
the settle delay), or during the inter-cycle wait — is caught by the
outer handler, logged as a clean shutdown, and the process exits 0; an
interrupt during authentication is not caught there: `run_collector`
re-raises it and the process exits 130. -/
theorem claim_C3_loop_interrupt_clean_auth_interrupt_crashes (fd : String) (once : Bool) :
    (∀ (env : CollectorEnv) (resolved : List String) (acc : List Event),
      (run_cycles resolved fd once env.cycles).2 = .excp .keyboardInterrupt →
      (after_resolve env resolved fd once acc).2 = .normal ∧
      Event.infoStoppedByUser ∈ (after_resolve env resolved fd once acc).1 ∧
      exit_code (after_resolve env resolved fd once acc).2 = some 0) ∧
    (∀ (resolved : List String) (caps : List CaptureEnv) (islp : Res Unit)
        (rest : List CycleEnv),
      (run_cycles resolved fd once (⟨.exc .keyboardInterrupt, caps, islp⟩ :: rest)).2 =
        .excp .keyboardInterrupt) ∧
    (∀ (nm : String) (cams : List String) (cenv : CaptureEnv) (caps : List CaptureEnv),
      (capture_frame cenv (fd ++ "/" ++ nm) nm).2 = .exc .keyboardInterrupt →
      (run_cams fd (nm :: cams) (cenv :: caps)).2 = some .keyboardInterrupt) ∧
    (∀ (resolved : List String) (cyc : CycleEnv) (rest : List CycleEnv),
      cyc.refreshOut = .ok () →
      (run_cams fd resolved cyc.captures).2 = some .keyboardInterrupt →
      (run_cycles resolved fd once (cyc :: rest)).2 = .excp .keyboardInterrupt) ∧
    (∀ (resolved : List String) (cyc : CycleEnv) (rest : List CycleEnv),
      cyc.refreshOut = .ok () → (run_cams fd resolved cyc.captures).2 = none →
      once = false → cyc.intervalSleepOut = .exc .keyboardInterrupt →
      (run_cycles resolved fd once (cyc :: rest)).2 = .excp .keyboardInterrupt) ∧
    (∀ (cenv : CaptureEnv) (dir nm : String),
      cenv.snapOut = .ok () → cenv.settleOut = .exc .keyboardInterrupt →
      (capture_frame cenv dir nm).2 = .exc .keyboardInterrupt) ∧
    (∀ (env : CollectorEnv) (cf : Option (List String)),
      (authenticate env.auth).2 = .exc .keyboardInterrupt →
      (run_collector env cf fd once).2 = .raised .keyboardInterrupt ∧
      exit_code (run_collector env cf fd once).2 = some 130) := by
  refine ⟨?_, ?_, ?_, ?_, ?_, ?_, ?_⟩
  · intro env resolved acc h
    refine ⟨?_, ?_, ?_⟩ <;> simp [after_resolve, h, exit_code]
  · intro resolved caps islp rest
    rfl
  · intro nm cams cenv caps h
    rw [run_cams_propagates_non_exception fd nm cams caps cenv .keyboardInterrupt h rfl]
  · intro resolved cyc rest hr hc
    rw [run_cycles_propagates resolved fd once cyc rest .keyboardInterrupt hr hc]
  · intro resolved cyc rest hr hc honce hislp
    rcases cyc with ⟨r, caps, islp⟩
    simp only at hr hc hislp
    subst hr; subst hislp; subst honce
    simp [run_cycles, hc]
  · intro cenv dir nm h1 h2
    rcases cenv with ⟨ts, sn, st, rf, dl, fe, fs⟩
    simp only at h1 h2
    subst h1; subst h2
    simp [capture_frame]
  · intro env cf hauth
    constructor <;> simp [run_collector, hauth, exit_code]

/-- Witness for C3. -/
theorem claim_C3_loop_interrupt_witness :
    (after_resolve ⟨scenarioAuth, true, ["cam"],
        [⟨.exc .keyboardInterrupt, [], .ok ()⟩]⟩ ["cam"] "frames" false []).2 =
      .normal :=
  ((claim_C3_loop_interrupt_clean_auth_interrupt_crashes "frames" false).1
    ⟨scenarioAuth, true, ["cam"], [⟨.exc .keyboardInterrupt, [], .ok ()⟩]⟩
    ["cam"] [] rfl).1

/-- Claim C8: if after a successful authentication the session reports
unavailable, or no cameras are discovered, or a nonempty name filter
matches none of them, `run_collector` logs an error and returns normally
before the capturing phase — no snapshot, download or directory
creation appears in the trace — and the process exits 0. -/
theorem claim_C8_early_stop_clean (env : CollectorEnv) (cf : Option (List String))
    (fd : String) (once : Bool) (b : Blink)
    (ha : (authenticate env.auth).2 = .ok b)
    (h : env.available = false ∨ env.camerasD = [] ∨
         (∃ f, cf = some f ∧ f ≠ [] ∧ resolve_cameras env.camerasD f = [])) :
    (run_collector env cf fd once).2 = .normal ∧
    exit_code (run_collector env cf fd once).2 = some 0 ∧
    (∀ ev ∈ (run_collector env cf fd once).1, ev.isCaptureEffect = false) ∧
    (Event.errorNotAvailable ∈ (run_collector env cf fd once).1 ∨
     Event.errorNoCameras ∈ (run_collector env cf fd once).1 ∨
     Event.errorFilterNoMatch env.camerasD ∈ (run_collector env cf fd once).1) := by
  obtain ⟨aenv, avail, camsD, cycles⟩ := env
  simp only at ha h ⊢
  cases avail with
  | false =>
    have hrc : run_collector ⟨aenv, false, camsD, cycles⟩ cf fd once =
        ((authenticate aenv).1 ++ [.errorNotAvailable], .normal) := by
      simp [run_collector, ha]
    refine ⟨by rw [hrc], by rw [hrc]; rfl, ?_, Or.inl (by rw [hrc]; simp)⟩
    rw [hrc]
    intro ev hev
    rcases List.mem_append.mp hev with h1 | h1
    · exact authenticate_no_capture_effect aenv ev h1
    · simp at h1
      subst h1
      rfl
  | true =>
    simp at h
    cases camsD with
    | nil =>
      have hrc : run_collector ⟨aenv, true, [], cycles⟩ cf fd once =
          ((authenticate aenv).1 ++ [.errorNoCameras], .normal) := by
        simp [run_collector, ha]
      refine ⟨by rw [hrc], by rw [hrc]; rfl, ?_, Or.inr (Or.inl (by rw [hrc]; simp))⟩
      rw [hrc]
      intro ev hev
      rcases List.mem_append.mp hev with h1 | h1
      · exact authenticate_no_capture_effect aenv ev h1
      · simp at h1
        subst h1
        rfl
    | cons hd tl =>
      rcases h with h | ⟨f, hcf, hf, hres⟩
      · exact absurd h (List.cons_ne_nil hd tl)
      · subst hcf
        have hfe : f.isEmpty = false := by
          cases f with
          | nil => exact absurd rfl hf
          | cons a l => rfl
        have hrc : run_collector ⟨aenv, true, hd :: tl, cycles⟩ (some f) fd once =
            ((authenticate aenv).1 ++
              [.infoCamerasFound (hd :: tl), .errorFilterNoMatch (hd :: tl)],
             .normal) := by
          simp [run_collector, ha, hfe, hres]
        refine ⟨by rw [hrc], by rw [hrc]; rfl, ?_,
          Or.inr (Or.inr (by rw [hrc]; simp))⟩
        rw [hrc]
        intro ev hev
        rcases List.mem_append.mp hev with h1 | h1
        · exact authenticate_no_capture_effect aenv ev h1
        · simp at h1
          rcases h1 with h1 | h1 <;> subst h1 <;> rfl

/-- Witness for C8. -/
theorem claim_C8_early_stop_witness :
    (run_collector ⟨scenarioAuth, false, ["cam"], []⟩ none "frames" false).2 =
      .normal :=
  (claim_C8_early_stop_clean ⟨scenarioAuth, false, ["cam"], []⟩ none "frames" false
    ⟨true⟩ rfl (Or.inl rfl)).1

/-- Claim C9: on every authentication path in which the submitted
second-factor code is rejected, `run_collector` terminates by re-raising
the `sys.exit(1)` — the process exits with status 1 — the code is
submitted exactly once (no retry), and no snapshot, download or
directory creation appears in the trace. -/
theorem claim_C9_bad_2fa_exits_nonzero (env : CollectorEnv)
    (cf : Option (List String)) (fd : String) (once : Bool)
    (h2fa : env.auth.send2faOk = false)
    (hpath : (env.auth.credsFileExists = true ∧
              env.auth.savedStart = .exc .twoFARequired) ∨
             (env.auth.credsFileExists = false ∧
              env.auth.freshStart = .exc .twoFARequired) ∨
             (env.auth.credsFileExists = true ∧ env.auth.savedStart = .ok false ∧
              env.auth.freshStart = .exc .twoFARequired)) :
    (run_collector env cf fd once).2 = .raised (.systemExit 1) ∧
    exit_code (run_collector env cf fd once).2 = some 1 ∧
    (run_collector env cf fd once).1.count (.send2fa false) = 1 ∧
    (∀ ev ∈ (run_collector env cf fd once).1, ev.isCaptureEffect = false) := by
  obtain ⟨aenv, avail, camsD, cycles⟩ := env
  simp only at h2fa hpath ⊢
  rcases aenv with ⟨cfe, ss, fs, s2, eu, ep⟩
  simp only at h2fa hpath
  subst h2fa
  have key : (authenticate ⟨cfe, ss, fs, false, eu, ep⟩).2 = .exc (.systemExit 1) ∧
      (authenticate ⟨cfe, ss, fs, false, eu, ep⟩).1.count (.send2fa false) = 1 := by
    rcases hpath with ⟨h1, h2⟩ | ⟨h1, h2⟩ | ⟨h1, h2, h3⟩
    · subst h1; subst h2
      exact ⟨rfl, rfl⟩
    · subst h1; subst h2
      rcases eu with _ | u <;> rcases ep with _ | p <;> exact ⟨rfl, rfl⟩
    · subst h1; subst h2; subst h3
      rcases eu with _ | u <;> rcases ep with _ | p <;> exact ⟨rfl, rfl⟩
  have hrc : run_collector ⟨⟨cfe, ss, fs, false, eu, ep⟩, avail, camsD, cycles⟩
        cf fd once =
      ((authenticate ⟨cfe, ss, fs, false, eu, ep⟩).1, .raised (.systemExit 1)) := by
    simp only [run_collector, key.1]
  refine ⟨by rw [hrc], by rw [hrc]; rfl, ?_, ?_⟩
  · rw [hrc]
    exact key.2
  · rw [hrc]
    exact authenticate_no_capture_effect ⟨cfe, ss, fs, false, eu, ep⟩

/-- Witness for C9. -/
theorem claim_C9_bad_2fa_witness :
    (run_collector ⟨⟨true, .exc .twoFARequired, .ok true, false, some "u", some "p"⟩,
        true, ["cam"], []⟩ none "frames" false).2 = .raised (.systemExit 1) :=
  (claim_C9_bad_2fa_exits_nonzero
    ⟨⟨true, .exc .twoFARequired, .ok true, false, some "u", some "p"⟩,
      true, ["cam"], []⟩ none "frames" false rfl (Or.inl ⟨rfl, rfl⟩)).1

end BlinkLapse
